import Mathlib

/-!
Verification of the Tion cloud-client specification against the two client
implementations in the repository:

* `custom_components/tion/client.py` — the asynchronous client (namespace `Async`);
* `custom_components/tion/tion_api.py` — the synchronous client (namespace `Sync`).

The JSON payloads delivered by the cloud API are modelled by the `Raw*`
structures (a `dict.get(key)` that may be absent becomes an `Option` field).
The server is modelled by a script: a list of HTTP events consumed in order,
one event per HTTP request issued by the client.  A transport exception
(`aiohttp.ClientError` / `TimeoutError` / `requests.RequestException`) is the
script event `HttpEvent.exc`; an ordinary response carries its status code and
a decoded JSON body.  Client operations are state-transition functions from
(client state, script) to a `RunRes` which is either a returned value, a
propagated (uncaught) transport exception, or `stuck` when the supplied script
is too short to determine the behaviour.  Each operation also reports the list
of HTTP requests it issued.
-/

/-- Raw JSON of a zone mode auto_set object (union of the keys read by the two
implementations: the async one reads only co2, the sync one also reads
temperature, humidity, noise, pm25, pm10). -/
structure RawAutoSet where
  co2 : Option Int := none
  temperature : Option Int := none
  humidity : Option Int := none
  noise : Option Int := none
  pm25 : Option Int := none
  pm10 : Option Int := none
deriving DecidableEq, Repr

/-- Raw JSON of a zone mode object. -/
structure RawMode where
  current : Option String := none
  auto_set : RawAutoSet := {}
deriving DecidableEq, Repr

/-- Raw JSON of a device data payload (union of the keys read by the two
implementations; pm10/pm1 are read only by the sync one). -/
structure RawDeviceData where
  co2 : Option Int := none
  temperature : Option Int := none
  humidity : Option Int := none
  pm25 : Option Int := none
  pm10 : Option Int := none
  pm1 : Option Int := none
  backlight : Option Bool := none
  sound_is_on : Option Bool := none
  is_on : Option Bool := none
  data_valid : Option Bool := none
  heater_installed : Option Bool := none
  heater_enabled : Option Bool := none
  heater_type : Option String := none
  heater_mode : Option String := none
  heater_power : Option Int := none
  speed : Option Int := none
  speed_max_set : Option Int := none
  speed_min_set : Option Int := none
  speed_limit : Option Int := none
  t_in : Option Int := none
  t_set : Option Int := none
  t_out : Option Int := none
  gate : Option Int := none
  filter_time_seconds : Option Int := none
  filter_need_replace : Option Bool := none
deriving DecidableEq, Repr

/-- Raw JSON of a device object. -/
structure RawDevice where
  guid : Option String := none
  name : Option String := none
  type : Option String := none
  mac : Option String := none
  is_online : Option Bool := none
  data : RawDeviceData := {}
  firmware : Option String := none
  hardware : Option String := none
  max_speed : Option Int := none
  t_max : Option Int := none
  t_min : Option Int := none
deriving DecidableEq, Repr

/-- Raw JSON of a zone object (`is_virtual` is the virtuality flag; Python
tests it with `if not zone.get("is_virtual")`, i.e. truthiness, which for a
JSON boolean-or-absent field is `· = some true`). -/
structure RawZone where
  guid : Option String := none
  name : Option String := none
  is_virtual : Option Bool := none
  hw_id : Option String := none
  mode : RawMode := {}
  devices : List RawDevice := []
deriving DecidableEq, Repr

/-- Raw JSON of a location object. -/
structure RawLocation where
  guid : Option String := none
  name : Option String := none
  unique_key : Option String := none
  zones : List RawZone := []
deriving DecidableEq, Repr

namespace Async

/-! Data model of `client.py` (the asynchronous client).  Every constructor is
the field-by-field translation of the corresponding Python `__init__`. -/

/-- Translation of `client.py` `TionZoneModeAutoSet.__init__`. -/
structure TionZoneModeAutoSet where
  co2 : Option Int
deriving DecidableEq, Repr

def TionZoneModeAutoSet.of_raw (r : RawAutoSet) : TionZoneModeAutoSet :=
  { co2 := r.co2 }

/-- Translation of `client.py` `TionZoneMode.__init__`. -/
structure TionZoneMode where
  current : Option String
  auto_set : TionZoneModeAutoSet
deriving DecidableEq, Repr

def TionZoneMode.of_raw (r : RawMode) : TionZoneMode :=
  { current := r.current, auto_set := TionZoneModeAutoSet.of_raw r.auto_set }

/-- Translation of `client.py` `TionZoneDeviceData.__init__`. -/
structure TionZoneDeviceData where
  co2 : Option Int
  temperature : Option Int
  humidity : Option Int
  pm25 : Option Int
  backlight : Option Bool
  sound_is_on : Option Bool
  is_on : Option Bool
  data_valid : Option Bool
  heater_installed : Option Bool
  heater_enabled : Option Bool
  heater_type : Option String
  heater_mode : Option String
  heater_power : Option Int
  speed : Option Int
  speed_max_set : Option Int
  speed_min_set : Option Int
  speed_limit : Option Int
  t_in : Option Int
  t_set : Option Int
  t_out : Option Int
  gate : Option Int
  filter_time_seconds : Option Int
  filter_need_replace : Option Bool
deriving DecidableEq, Repr

def TionZoneDeviceData.of_raw (r : RawDeviceData) : TionZoneDeviceData :=
  { co2 := r.co2, temperature := r.temperature, humidity := r.humidity,
    pm25 := r.pm25, backlight := r.backlight, sound_is_on := r.sound_is_on,
    is_on := r.is_on, data_valid := r.data_valid,
    heater_installed := r.heater_installed, heater_enabled := r.heater_enabled,
    heater_type := r.heater_type, heater_mode := r.heater_mode,
    heater_power := r.heater_power, speed := r.speed,
    speed_max_set := r.speed_max_set, speed_min_set := r.speed_min_set,
    speed_limit := r.speed_limit, t_in := r.t_in, t_set := r.t_set,
    t_out := r.t_out, gate := r.gate,
    filter_time_seconds := r.filter_time_seconds,
    filter_need_replace := r.filter_need_replace }

/-- Translation of `client.py` `TionZoneDevice.__init__`. -/
structure TionZoneDevice where
  guid : Option String
  name : Option String
  type : Option String
  mac : Option String
  data : TionZoneDeviceData
  firmware : Option String
  hardware : Option String
  max_speed : Option Int
  t_max : Option Int
  t_min : Option Int
  is_online : Option Bool
deriving DecidableEq, Repr

def TionZoneDevice.of_raw (r : RawDevice) : TionZoneDevice :=
  { guid := r.guid, name := r.name, type := r.type, mac := r.mac,
    data := TionZoneDeviceData.of_raw r.data, firmware := r.firmware,
    hardware := r.hardware, max_speed := r.max_speed, t_max := r.t_max,
    t_min := r.t_min, is_online := r.is_online }

/-- Translation of `client.py` `TionZoneDevice.valid`:
`if self.data.data_valid is not None: return self.data.data_valid` and
otherwise `return self.guid is not None`. -/
def TionZoneDevice.valid (d : TionZoneDevice) : Bool :=
  match d.data.data_valid with
  | some b => b
  | none => d.guid.isSome

/-- Translation of `client.py` `TionZone.__init__` (this constructor reads
only guid, name, mode and devices from the raw zone dict). -/
structure TionZone where
  guid : Option String
  name : Option String
  mode : TionZoneMode
  devices : List TionZoneDevice
deriving DecidableEq, Repr

def TionZone.of_raw (r : RawZone) : TionZone :=
  { guid := r.guid, name := r.name, mode := TionZoneMode.of_raw r.mode,
    devices := r.devices.map TionZoneDevice.of_raw }

/-- Translation of `client.py` `TionZone.valid`. -/
def TionZone.valid (z : TionZone) : Bool := z.guid.isSome

/-- Translation of `client.py` `TionLocation.__init__`: the zone list is the
comprehension `[TionZone(zone) for zone in data.get("zones", []) if not
zone.get("is_virtual")]` — zones whose raw `is_virtual` field is truthy are
dropped before construction. -/
structure TionLocation where
  guid : Option String
  name : Option String
  zones : List TionZone
deriving DecidableEq, Repr

def TionLocation.of_raw (r : RawLocation) : TionLocation :=
  { guid := r.guid, name := r.name,
    zones := (r.zones.filter fun z => !(z.is_virtual.getD false)).map TionZone.of_raw }

end Async

/-- Decoded JSON body of an HTTP response, restricted to the shapes this API
serves: the location tree (GET location), the auth token (POST token), the
task protocol body ({status, description, task_id} — task_id is read only when
status is queued, the task-poll body reuses the same shape with only status
meaningful), or anything else. -/
inductive Body where
  | locations (ls : List RawLocation)
  | token (token_type access_token : String)
  | task (status descr task_id : String)
  | empty
deriving DecidableEq, Repr

/-- Either a delivered HTTP response or a transport exception raised by the
HTTP library during the request (connection error / timeout). -/
inductive HttpEvent where
  | resp (status : Nat) (body : Body)
  | exc
deriving DecidableEq, Repr

/-- JSON body submitted by the sync client's `Zone.send`. -/
structure ZoneModeBody where
  mode : String
  co2 : Int
deriving DecidableEq, Repr

/-- Log of the HTTP requests a client operation issued, in order
(`submit_zone_req` additionally records the JSON body the sync `Zone.send`
posts; the other submissions' bodies do not influence any claim). -/
inductive Request where
  | auth_req
  | location_req
  | submit_req (url : String)
  | submit_zone_req (url : String) (body : ZoneModeBody)
  | task_req (task_id : String)
deriving DecidableEq, Repr

/-- Result of running a client operation against a server script: a returned
value with the final client state and unconsumed script, a transport
exception that the operation did not catch and therefore propagates to its
caller, or `stuck` when the script is too short (or has a body shape the code
would crash on) so the run is not determined. -/
inductive RunRes (σ α : Type) where
  | ok (a : α) (st : σ) (rest : List HttpEvent)
  | raised (st : σ) (rest : List HttpEvent)
  | stuck
deriving DecidableEq, Repr

/-- Truth of being a propagated (uncaught) transport exception. -/
def RunRes.is_raised {σ α : Type} : RunRes σ α → Bool
  | .raised _ _ => true
  | _ => false

/-- Prepend one issued request to an operation outcome's request log. -/
def with_req {σ α : Type} (r : Request) (out : RunRes σ α × List Request) :
    RunRes σ α × List Request :=
  (out.1, r :: out.2)

/-- Interpretation of the one response event of an authentication request,
shared by both implementations (they differ only in what they do on a
transport exception): HTTP 200 with a token body composes
`"{token_type} {access_token}"` and succeeds, any other status fails. -/
inductive AuthStep where
  | success (new_auth : String)
  | failure
  | transport_err
  | malformed
deriving DecidableEq, Repr

def auth_resp_step : HttpEvent → AuthStep
  | .exc => .transport_err
  | .resp s body =>
    if s = 200 then
      match body with
      | .token tt tok => .success (tt ++ " " ++ tok)
      | _ => .malformed
    else .failure

namespace Async

/-- Configuration fixed at `TionClient.__init__` (client.py). -/
structure ClientConfig where
  username : String
  password : String
  min_update_interval : Nat
deriving DecidableEq, Repr

/-- Mutable state of a `client.py` `TionClient`: `self._authorization`,
`self._locations` (initialized to the empty list, never to None) and
`self._last_update` (initialized to 0).  `now` is passed to each operation as
the value the wall clock `time()` reads during it. -/
structure ClientState where
  authorization : Option String
  locations : List TionLocation
  last_update : Nat
deriving DecidableEq, Repr

/-- Fresh state after `TionClient.__init__` with no stored auth. -/
def initial_state : ClientState :=
  { authorization := none, locations := [], last_update := 0 }

/-- Translation of `client.py` `TionClient._get_authorization`: POSTs the
password grant (one script event).  There is no try/except around the
request, so a transport exception propagates (`raised`).  On 200 the token is
stored; on any other status it returns False. -/
def get_authorization (st : ClientState) (script : List HttpEvent) :
    RunRes ClientState Bool × List Request :=
  match script with
  | [] => (.stuck, [.auth_req])
  | ev :: rest =>
    match auth_resp_step ev with
    | .success a => (.ok true { st with authorization := some a } rest, [.auth_req])
    | .failure => (.ok false st rest, [.auth_req])
    | .transport_err => (.raised st rest, [.auth_req])
    | .malformed => (.stuck, [.auth_req])

/-- Translation of `client.py` `TionClient._get_data`: GETs the location
list (one script event); no try/except, so a transport exception propagates.
200 replaces the whole snapshot and stamps `last_update`; 401 runs
`_get_authorization` (the next script event) and on its success recurses on
the remaining script — the recursion has no depth bound in the source; any
other status returns False. -/
def get_data (cfg : ClientConfig) :
    ClientState → List HttpEvent → Nat → RunRes ClientState Bool × List Request
  | _st, [], _now => (.stuck, [.location_req])
  | st, .exc :: rest, _now => (.raised st rest, [.location_req])
  | st, .resp s body :: rest, now =>
    if s = 200 then
      match body with
      | .locations ls =>
        (.ok true { st with locations := ls.map TionLocation.of_raw,
                            last_update := now } rest, [.location_req])
      | _ => (.stuck, [.location_req])
    else if s = 401 then
      match rest with
      | [] => (.stuck, [.location_req, .auth_req])
      | ev :: rest2 =>
        match auth_resp_step ev with
        | .success a =>
          let out := get_data cfg { st with authorization := some a } rest2 now
          (out.1, .location_req :: .auth_req :: out.2)
        | .failure => (.ok false st rest2, [.location_req, .auth_req])
        | .transport_err => (.raised st rest2, [.location_req, .auth_req])
        | .malformed => (.stuck, [.location_req, .auth_req])
    else (.ok false st rest, [.location_req])

/-- Translation of the Python expression `self._locations is not None` in
`get_location_data`: the `_locations` attribute is initialized to `[]` and
only ever reassigned to list comprehensions, so it is always a list object
and never None — the test is identically true. -/
def locations_is_not_none (_locs : List TionLocation) : Bool := true

/-- Translation of `client.py` `TionClient.get_location_data`: if not forced
and the elapsed time since `_last_update` is below `_min_update_interval`, it
skips the request and returns `self._locations is not None`; otherwise it
runs `_get_data`.  (The `asyncio.Lock` only serializes concurrent callers and
is invisible to this single-call model.) -/
def get_location_data (cfg : ClientConfig) (st : ClientState)
    (script : List HttpEvent) (now : Nat) (force : Bool) :
    RunRes ClientState Bool × List Request :=
  if force = false ∧ (now - st.last_update) < cfg.min_update_interval then
    (.ok (locations_is_not_none st.locations) st script, [])
  else get_data cfg st script now

/-- Nested-loop scan of `TionClient.get_zone`: first zone (locations in
order, zones in order) whose guid equals the argument.  Python compares
`zone_data.guid == guid` where the attribute may be None; `Option String`
equality has exactly Python's `==` semantics on these values. -/
def get_zone_pure (locs : List TionLocation) (needle : Option String) :
    Option TionZone :=
  (locs.flatMap fun l => l.zones).find? fun z => z.guid == needle

/-- Nested-loop scan of `TionClient.get_device`: first device (locations,
zones, devices in order) whose guid equals the argument. -/
def get_device_pure (locs : List TionLocation) (needle : Option String) :
    Option TionZoneDevice :=
  (locs.flatMap fun l => l.zones.flatMap fun z => z.devices).find? fun d =>
    d.guid == needle

/-- Nested-loop scan of `TionClient.get_device_zone`: the zone of the first
matching device; since devices are scanned zone by zone in order, this is the
first zone containing any matching device. -/
def get_device_zone_pure (locs : List TionLocation) (needle : Option String) :
    Option TionZone :=
  (locs.flatMap fun l => l.zones).find? fun z =>
    z.devices.any fun d => d.guid == needle

/-- Comprehension of `TionClient.get_devices`: the tree flattened in
location order, then zone order, then device order. -/
def get_devices_pure (locs : List TionLocation) : List TionZoneDevice :=
  locs.flatMap fun l => l.zones.flatMap fun z => z.devices

/-- Translation of `client.py` `TionClient.get_zone` (stateful wrapper:
refresh through `get_location_data`, then scan; None when refresh fails). -/
def get_zone (cfg : ClientConfig) (st : ClientState) (script : List HttpEvent)
    (now : Nat) (needle : Option String) (force : Bool) :
    RunRes ClientState (Option TionZone) × List Request :=
  match get_location_data cfg st script now force with
  | (.ok true st1 rest, reqs) => (.ok (get_zone_pure st1.locations needle) st1 rest, reqs)
  | (.ok false st1 rest, reqs) => (.ok none st1 rest, reqs)
  | (.raised st1 rest, reqs) => (.raised st1 rest, reqs)
  | (.stuck, reqs) => (.stuck, reqs)

/-- Translation of `client.py` `TionClient.get_device`. -/
def get_device (cfg : ClientConfig) (st : ClientState) (script : List HttpEvent)
    (now : Nat) (needle : Option String) (force : Bool) :
    RunRes ClientState (Option TionZoneDevice) × List Request :=
  match get_location_data cfg st script now force with
  | (.ok true st1 rest, reqs) => (.ok (get_device_pure st1.locations needle) st1 rest, reqs)
  | (.ok false st1 rest, reqs) => (.ok none st1 rest, reqs)
  | (.raised st1 rest, reqs) => (.raised st1 rest, reqs)
  | (.stuck, reqs) => (.stuck, reqs)

/-- Translation of `client.py` `TionClient.get_device_zone`. -/
def get_device_zone (cfg : ClientConfig) (st : ClientState)
    (script : List HttpEvent) (now : Nat) (needle : Option String) (force : Bool) :
    RunRes ClientState (Option TionZone) × List Request :=
  match get_location_data cfg st script now force with
  | (.ok true st1 rest, reqs) => (.ok (get_device_zone_pure st1.locations needle) st1 rest, reqs)
  | (.ok false st1 rest, reqs) => (.ok none st1 rest, reqs)
  | (.raised st1 rest, reqs) => (.raised st1 rest, reqs)
  | (.stuck, reqs) => (.stuck, reqs)

/-- Translation of `client.py` `TionClient.get_devices` (empty list when the
refresh fails). -/
def get_devices (cfg : ClientConfig) (st : ClientState) (script : List HttpEvent)
    (now : Nat) (force : Bool) :
    RunRes ClientState (List TionZoneDevice) × List Request :=
  match get_location_data cfg st script now force with
  | (.ok true st1 rest, reqs) => (.ok (get_devices_pure st1.locations) st1 rest, reqs)
  | (.ok false st1 rest, reqs) => (.ok [] st1 rest, reqs)
  | (.raised st1 rest, reqs) => (.raised st1 rest, reqs)
  | (.stuck, reqs) => (.stuck, reqs)

/-- Translation of `client.py` `TionClient._wait_for_task` unrolled from an
arbitrary elapsed time.  Time is counted in DELAY ticks of 0.5 s: the loop
first checks `elapsed_time >= max_time` (elapsed ≥ 2·max_time ticks) and
returns False on budget expiry; otherwise it polls the task (one script
event).  A transport exception is caught: logged, slept through (one tick)
and the loop continues.  A 200 response with status completed triggers
`get_location_data(force=True)` and returns its result; any other 200 status
sleeps one tick and loops; a non-200 response returns False. -/
def wait_for_task_from (cfg : ClientConfig) (now : Nat) (task_id : String)
    (max_time : Nat) :
    ClientState → List HttpEvent → Nat → RunRes ClientState Bool × List Request
  | st, [], elapsed =>
    if 2 * max_time ≤ elapsed then (.ok false st [], [])
    else (.stuck, [.task_req task_id])
  | st, .exc :: rest, elapsed =>
    if 2 * max_time ≤ elapsed then (.ok false st (.exc :: rest), [])
    else
      with_req (.task_req task_id)
        (wait_for_task_from cfg now task_id max_time st rest (elapsed + 1))
  | st, .resp s (.task status descr tid2) :: rest, elapsed =>
    if 2 * max_time ≤ elapsed then
      (.ok false st (.resp s (.task status descr tid2) :: rest), [])
    else
      if s = 200 then
        if status = "completed" then
          with_req (.task_req task_id) (get_location_data cfg st rest now true)
        else
          with_req (.task_req task_id)
            (wait_for_task_from cfg now task_id max_time st rest (elapsed + 1))
      else (.ok false st rest, [.task_req task_id])
  | st, .resp s b :: rest, elapsed =>
    if 2 * max_time ≤ elapsed then (.ok false st (.resp s b :: rest), [])
    else
      if s = 200 then (.stuck, [.task_req task_id])
      else (.ok false st rest, [.task_req task_id])

/-- Translation of `client.py` `TionClient._wait_for_task` (elapsed time
starts at zero; the default polling budget is `max_time = 5` seconds). -/
def wait_for_task (cfg : ClientConfig) (st : ClientState)
    (script : List HttpEvent) (now : Nat) (task_id : String) (max_time : Nat) :
    RunRes ClientState Bool × List Request :=
  wait_for_task_from cfg now task_id max_time st script 0

/-- Translation of `client.py` `TionClient._send`: POSTs the mutation body
(one script event); no try/except, so a transport exception propagates.  The
JSON body is parsed regardless of the HTTP status; if its status field is not
queued the call logs and returns False immediately, otherwise it waits for
the returned task with the default 5 s budget. -/
def send_cmd (cfg : ClientConfig) :
    ClientState → List HttpEvent → Nat → String →
      RunRes ClientState Bool × List Request
  | _st, [], _now, url => (.stuck, [.submit_req url])
  | st, .exc :: rest, _now, url => (.raised st rest, [.submit_req url])
  | st, .resp _s (.task status _d task_id) :: rest, now, url =>
    if status = "queued" then
      with_req (.submit_req url) (wait_for_task cfg st rest now task_id 5)
    else (.ok false st rest, [.submit_req url])
  | _st, .resp _s _b :: _rest, _now, url => (.stuck, [.submit_req url])

def API_ENDPOINT : String := "https://api2.magicair.tion.ru/"

/-- Translation of `client.py` `TionClient.send_zone` (the JSON body
{mode, co2} is forwarded to `_send`; the scripted server model does not
depend on request bodies). -/
def send_zone (cfg : ClientConfig) (st : ClientState) (script : List HttpEvent)
    (now : Nat) (guid : String) : RunRes ClientState Bool × List Request :=
  send_cmd cfg st script now (API_ENDPOINT ++ "zone/" ++ guid ++ "/mode")

/-- Translation of `client.py` `TionClient.send_breezer`. -/
def send_breezer (cfg : ClientConfig) (st : ClientState)
    (script : List HttpEvent) (now : Nat) (guid : String) :
    RunRes ClientState Bool × List Request :=
  send_cmd cfg st script now (API_ENDPOINT ++ "device/" ++ guid ++ "/mode")

end Async

namespace Sync

/-! Data model and client of `tion_api.py` (the synchronous client). -/

/-- Translation of `tion_api.py` `TionZoneModeAutoSet.__init__`. -/
structure TionZoneModeAutoSet where
  co2 : Option Int
  temperature : Option Int
  humidity : Option Int
  noise : Option Int
  pm25 : Option Int
  pm10 : Option Int
deriving DecidableEq, Repr

def TionZoneModeAutoSet.of_raw (r : RawAutoSet) : TionZoneModeAutoSet :=
  { co2 := r.co2, temperature := r.temperature, humidity := r.humidity,
    noise := r.noise, pm25 := r.pm25, pm10 := r.pm10 }

/-- Translation of `tion_api.py` `TionZoneMode.__init__`. -/
structure TionZoneMode where
  current : Option String
  auto_set : TionZoneModeAutoSet
deriving DecidableEq, Repr

def TionZoneMode.of_raw (r : RawMode) : TionZoneMode :=
  { current := r.current, auto_set := TionZoneModeAutoSet.of_raw r.auto_set }

/-- Translation of `tion_api.py` `TionZoneDeviceData.__init__` (reads pm10
and pm1 in addition to the async client's fields). -/
structure TionZoneDeviceData where
  co2 : Option Int
  temperature : Option Int
  humidity : Option Int
  pm25 : Option Int
  pm10 : Option Int
  pm1 : Option Int
  backlight : Option Bool
  sound_is_on : Option Bool
  is_on : Option Bool
  data_valid : Option Bool
  heater_installed : Option Bool
  heater_enabled : Option Bool
  heater_type : Option String
  heater_mode : Option String
  heater_power : Option Int
  speed : Option Int
  speed_max_set : Option Int
  speed_min_set : Option Int
  speed_limit : Option Int
  t_in : Option Int
  t_set : Option Int
  t_out : Option Int
  gate : Option Int
  filter_time_seconds : Option Int
  filter_need_replace : Option Bool
deriving DecidableEq, Repr

def TionZoneDeviceData.of_raw (r : RawDeviceData) : TionZoneDeviceData :=
  { co2 := r.co2, temperature := r.temperature, humidity := r.humidity,
    pm25 := r.pm25, pm10 := r.pm10, pm1 := r.pm1, backlight := r.backlight,
    sound_is_on := r.sound_is_on, is_on := r.is_on, data_valid := r.data_valid,
    heater_installed := r.heater_installed, heater_enabled := r.heater_enabled,
    heater_type := r.heater_type, heater_mode := r.heater_mode,
    heater_power := r.heater_power, speed := r.speed,
    speed_max_set := r.speed_max_set, speed_min_set := r.speed_min_set,
    speed_limit := r.speed_limit, t_in := r.t_in, t_set := r.t_set,
    t_out := r.t_out, gate := r.gate,
    filter_time_seconds := r.filter_time_seconds,
    filter_need_replace := r.filter_need_replace }

/-- Translation of `tion_api.py` `TionZoneDevice.__init__` (no derived
`valid` here: the sync variant puts validity on the `Breezer`/`MagicAir`
wrapper classes). -/
structure TionZoneDevice where
  guid : Option String
  name : Option String
  type : Option String
  mac : Option String
  is_online : Option Bool
  data : TionZoneDeviceData
  firmware : Option String
  hardware : Option String
  max_speed : Option Int
  t_max : Option Int
  t_min : Option Int
deriving DecidableEq, Repr

def TionZoneDevice.of_raw (r : RawDevice) : TionZoneDevice :=
  { guid := r.guid, name := r.name, type := r.type, mac := r.mac,
    is_online := r.is_online, data := TionZoneDeviceData.of_raw r.data,
    firmware := r.firmware, hardware := r.hardware, max_speed := r.max_speed,
    t_max := r.t_max, t_min := r.t_min }

/-- Translation of `tion_api.py` `TionZone.__init__` (keeps the is_virtual
flag and hw_id on the parsed zone). -/
structure TionZone where
  guid : Option String
  name : Option String
  is_virtual : Option Bool
  mode : TionZoneMode
  hw_id : Option String
  devices : List TionZoneDevice
deriving DecidableEq, Repr

def TionZone.of_raw (r : RawZone) : TionZone :=
  { guid := r.guid, name := r.name, is_virtual := r.is_virtual,
    mode := TionZoneMode.of_raw r.mode, hw_id := r.hw_id,
    devices := r.devices.map TionZoneDevice.of_raw }

/-- Translation of `tion_api.py` `TionLocation.__init__`: the zone list is
`[TionZone(zone) for zone in data.get("zones", [])]` — no virtuality filter,
every raw zone (virtual or not) is kept. -/
structure TionLocation where
  guid : Option String
  name : Option String
  unique_key : Option String
  zones : List TionZone
deriving DecidableEq, Repr

def TionLocation.of_raw (r : RawLocation) : TionLocation :=
  { guid := r.guid, name := r.name, unique_key := r.unique_key,
    zones := r.zones.map TionZone.of_raw }

/-- Configuration fixed at `tion_api.py` `TionClient.__init__` (the auth-file
persistence is host-side I/O outside this model). -/
structure ClientConfig where
  email : String
  password : String
  min_update_interval : Nat
deriving DecidableEq, Repr

/-- Mutable state of a `tion_api.py` `TionClient` (`self.authorization`,
`self._locations` initialized to `[]`, `self._last_update` initialized 0). -/
structure ClientState where
  authorization : Option String
  locations : List TionLocation
  last_update : Nat
deriving DecidableEq, Repr

def initial_state : ClientState :=
  { authorization := none, locations := [], last_update := 0 }

/-- Translation of `tion_api.py` `TionClient._get_authorization`: the POST is
wrapped in try/except RequestException, so a transport exception is logged
and resolved to False instead of propagating. -/
def get_authorization (st : ClientState) (script : List HttpEvent) :
    RunRes ClientState Bool × List Request :=
  match script with
  | [] => (.stuck, [.auth_req])
  | ev :: rest =>
    match auth_resp_step ev with
    | .success a => (.ok true { st with authorization := some a } rest, [.auth_req])
    | .failure => (.ok false st rest, [.auth_req])
    | .transport_err => (.ok false st rest, [.auth_req])
    | .malformed => (.stuck, [.auth_req])

/-- Translation of the Python expression `self._locations is not None` in the
sync `get_location_data` (the attribute is always a list, never None). -/
def locations_is_not_none (_locs : List TionLocation) : Bool := true

/-- Network part of `tion_api.py` `TionClient.get_location_data` (what runs
once the debounce check has passed): the GET is wrapped in try/except
RequestException (transport exception resolved to False); on 401, a
successful `_get_authorization` (next script event) leads to the recursive
call `get_location_data(force=True)` — whose debounce test `not force and
...` necessarily fails, so it lands right back here; the recursion has no
depth bound. -/
def location_fetch (cfg : ClientConfig) :
    ClientState → List HttpEvent → Nat → RunRes ClientState Bool × List Request
  | _st, [], _now => (.stuck, [.location_req])
  | st, .exc :: rest, _now => (.ok false st rest, [.location_req])
  | st, .resp s body :: rest, now =>
    if s = 200 then
      match body with
      | .locations ls =>
        (.ok true { st with locations := ls.map TionLocation.of_raw,
                            last_update := now } rest, [.location_req])
      | _ => (.stuck, [.location_req])
    else if s = 401 then
      match rest with
      | [] => (.stuck, [.location_req, .auth_req])
      | ev :: rest2 =>
        match auth_resp_step ev with
        | .success a =>
          let out := location_fetch cfg { st with authorization := some a }
              rest2 now
          (out.1, .location_req :: .auth_req :: out.2)
        | .failure => (.ok false st rest2, [.location_req, .auth_req])
        | .transport_err => (.ok false st rest2, [.location_req, .auth_req])
        | .malformed => (.stuck, [.location_req, .auth_req])
    else (.ok false st rest, [.location_req])

/-- Translation of `tion_api.py` `TionClient.get_location_data`: same
debounce as the async client, then the network fetch. -/
def get_location_data (cfg : ClientConfig) (st : ClientState)
    (script : List HttpEvent) (now : Nat) (force : Bool) :
    RunRes ClientState Bool × List Request :=
  if force = false ∧ (now - st.last_update) < cfg.min_update_interval then
    (.ok (locations_is_not_none st.locations) st script, [])
  else location_fetch cfg st script now

/-- Translation of `tion_api.py` `TionClient.wait_for_task` with the
remaining iteration count explicit: the loop body runs
`int(max_time / DELAY) = 2 * max_time` times.  A transport exception on the
poll is caught and resolved to False (the sync loop gives up on it); a 200
response with status completed triggers `get_location_data(force=True)`,
whose result is discarded, and returns True; another 200 status sleeps one
DELAY; a non-200 response returns False; a finished loop returns False. -/
def wait_for_task_iter (cfg : ClientConfig) (now : Nat) (task_id : String) :
    Nat → ClientState → List HttpEvent → RunRes ClientState Bool × List Request
  | 0, st, script => (.ok false st script, [])
  | _iters + 1, _st, [] => (.stuck, [.task_req task_id])
  | _iters + 1, st, .exc :: rest => (.ok false st rest, [.task_req task_id])
  | iters + 1, st, .resp s (.task status _descr _tid2) :: rest =>
    if s = 200 then
      if status = "completed" then
        match get_location_data cfg st rest now true with
        | (.ok _ st1 rest1, reqs) => (.ok true st1 rest1, .task_req task_id :: reqs)
        | (.raised st1 rest1, reqs) => (.raised st1 rest1, .task_req task_id :: reqs)
        | (.stuck, reqs) => (.stuck, .task_req task_id :: reqs)
      else
        with_req (.task_req task_id)
          (wait_for_task_iter cfg now task_id iters st rest)
    else (.ok false st rest, [.task_req task_id])
  | _iters + 1, st, .resp s _b :: rest =>
    if s = 200 then (.stuck, [.task_req task_id])
    else (.ok false st rest, [.task_req task_id])

/-- Translation of `tion_api.py` `TionClient.wait_for_task` (default budget
`max_time = 5` seconds, DELAY = 0.5 s, hence 10 iterations). -/
def wait_for_task (cfg : ClientConfig) (st : ClientState)
    (script : List HttpEvent) (now : Nat) (task_id : String) (max_time : Nat) :
    RunRes ClientState Bool × List Request :=
  wait_for_task_iter cfg now task_id (2 * max_time) st script

/-- Local state of a `tion_api.py` `Zone` wrapper object (the fields that
`__init__` + `load` set and `send` reads). -/
structure Zone where
  guid : Option String
  name : Option String
  mode : Option String
  target_co2 : Option Int
deriving DecidableEq, Repr

/-- Translation of `Zone.load` from a `TionZone` snapshot. -/
def Zone.of_zone_data (z : TionZone) : Zone :=
  { guid := z.guid, name := z.name, mode := z.mode.current,
    target_co2 := z.mode.auto_set.co2 }

/-- Translation of `tion_api.py` `Zone.valid`: guid is not None. -/
def Zone.valid (z : Zone) : Bool := z.guid.isSome

/-- Translation of the body construction in `tion_api.py` `Zone.send`:
`"mode": self._mode if self._mode in ("auto", "manual") else "manual"` (a
None mode is not in the tuple, hence coerced to "manual") and
`"co2": int(self._target_co2) if self._target_co2 is not None else 900`. -/
def Zone.send_body (z : Zone) : ZoneModeBody :=
  { mode := match z.mode with
      | some m => if m = "auto" ∨ m = "manual" then m else "manual"
      | none => "manual",
    co2 := match z.target_co2 with
      | some c => c
      | none => 900 }

/-- Submission half of `tion_api.py` `Zone.send` (after the validity guard):
POSTs the body to the zone mode url (one script event; a transport exception
is caught and resolved to False); a JSON status other than queued returns
False immediately; queued hands the task_id to `wait_for_task` with the
default 5 s budget. -/
def zone_submit (cfg : ClientConfig) (now : Nat) (url : String)
    (body : ZoneModeBody) :
    ClientState → List HttpEvent → RunRes ClientState Bool × List Request
  | _st, [] => (.stuck, [.submit_zone_req url body])
  | st, .exc :: rest => (.ok false st rest, [.submit_zone_req url body])
  | st, .resp _s (.task status _d task_id) :: rest =>
    if status = "queued" then
      with_req (.submit_zone_req url body) (wait_for_task cfg st rest now task_id 5)
    else (.ok false st rest, [.submit_zone_req url body])
  | _st, .resp _s _b :: _rest => (.stuck, [.submit_zone_req url body])

/-- Translation of `tion_api.py` `Zone.send`: returns False without any
request when the zone is invalid (guid None); otherwise submits `send_body`
and drives the task protocol. -/
def Zone.send (cfg : ClientConfig) (st : ClientState) (z : Zone)
    (script : List HttpEvent) (now : Nat) :
    RunRes ClientState Bool × List Request :=
  if z.valid = false then (.ok false st script, [])
  else
    zone_submit cfg now
      ("https://api2.magicair.tion.ru/zone/" ++ z.guid.getD "" ++ "/mode")
      (Zone.send_body z) st script

/-- Local state of a `tion_api.py` `Breezer` wrapper object: the fields that
`__init__` and `load` populate from a `TionZoneDevice` snapshot. -/
structure Breezer where
  guid : Option String
  name : Option String
  type : Option String
  mac : Option String
  firmware : Option String
  hardware : Option String
  max_speed : Option Int
  speed_limit : Option Int
  t_max : Option Int
  t_min : Option Int
  heater_type : Option String
  heater_installed : Option Bool
  data_valid : Option Bool
  is_on : Option Bool
  t_in : Option Int
  t_out : Option Int
  t_set : Option Int
  heater_enabled : Option Bool
  heater_mode : Option String
  heater_power : Option Int
  speed : Option Int
  speed_min_set : Option Int
  speed_max_set : Option Int
  gate : Option Int
  backlight : Option Bool
  sound_is_on : Option Bool
  filter_need_replace : Option Bool
deriving DecidableEq, Repr

/-- Translation of `Breezer.__init__` followed by `Breezer.load` on the same
device snapshot (what the constructor does). -/
def Breezer.of_device (d : TionZoneDevice) : Breezer :=
  { guid := d.guid, name := d.name, type := d.type, mac := d.mac,
    firmware := d.firmware, hardware := d.hardware, max_speed := d.max_speed,
    speed_limit := d.data.speed_limit, t_max := d.t_max, t_min := d.t_min,
    heater_type := d.data.heater_type,
    heater_installed := if d.data.heater_type.isSome then some true
      else d.data.heater_installed,
    data_valid := d.data.data_valid, is_on := d.data.is_on,
    t_in := d.data.t_in, t_out := d.data.t_out, t_set := d.data.t_set,
    heater_enabled := d.data.heater_enabled, heater_mode := d.data.heater_mode,
    heater_power := d.data.heater_power, speed := d.data.speed,
    speed_min_set := d.data.speed_min_set, speed_max_set := d.data.speed_max_set,
    gate := d.data.gate, backlight := d.data.backlight,
    sound_is_on := d.data.sound_is_on,
    filter_need_replace := d.data.filter_need_replace }

/-- Translation of `tion_api.py` `Breezer.valid`: the Python truth value of
`self.guid is not None and self._data_valid` — true exactly when the guid is
present and data_valid is the value True (an absent data_valid, i.e. None,
is falsy). -/
def Breezer.valid (b : Breezer) : Bool :=
  b.guid.isSome && b.data_valid.getD false

end Sync

section SyncScratch

def scfg0 : Sync.ClientConfig :=
  { email := "u", password := "p", min_update_interval := 10 }

example : Sync.wait_for_task scfg0 Sync.initial_state [HttpEvent.exc] 0 "T" 5
    = (.ok false Sync.initial_state [], [.task_req "T"]) := by decide

example : Sync.Zone.send scfg0 Sync.initial_state
    { guid := some "z", name := none, mode := none, target_co2 := none }
    [.resp 200 (.task "queued" "" "T"), .resp 200 (.task "completed" "" ""),
     .resp 500 .empty] 7
    = (.ok true Sync.initial_state [],
       [.submit_zone_req "https://api2.magicair.tion.ru/zone/z/mode"
          { mode := "manual", co2 := 900 },
        .task_req "T", .location_req]) := by decide

end SyncScratch

section AsyncScratch

def cfg0 : Async.ClientConfig :=
  { username := "u", password := "p", min_update_interval := 10 }

example : Async.get_location_data cfg0 Async.initial_state [] 5 false
    = (.ok true Async.initial_state [], []) := by decide

example : Async.get_location_data cfg0 Async.initial_state [HttpEvent.exc] 100 true
    = (.raised Async.initial_state [], [.location_req]) := by decide

example : Async.get_data cfg0 Async.initial_state
    [.resp 401 .empty, .resp 200 (.token "Bearer" "t1"),
     .resp 401 .empty, .resp 200 (.token "Bearer" "t2"),
     .resp 200 (.locations [])] 50
    = (.ok true { authorization := some "Bearer t2", locations := [], last_update := 50 } [],
       [.location_req, .auth_req, .location_req, .auth_req, .location_req]) := by decide

example : Async.send_zone cfg0 Async.initial_state
    [.resp 200 (.task "queued" "" "T"), .resp 200 (.task "running" "" ""),
     .resp 200 (.task "completed" "" ""), .resp 500 .empty] 7 "g"
    = (.ok false Async.initial_state [],
       [.submit_req (Async.API_ENDPOINT ++ "zone/g/mode"), .task_req "T", .task_req "T",
        .location_req]) := by decide

end AsyncScratch

/-! Claim theorems. -/

/-- Device used by the C5 counterexample: null guid, data_valid true. -/
def c5_device : Async.TionZoneDevice :=
  Async.TionZoneDevice.of_raw { guid := none, data := { data_valid := some true } }

/-- C5 counterexample: a parsed async device whose guid is null but whose
data_valid field is explicitly true is reported valid by
`TionZoneDevice.valid` (client.py), contradicting the claim that a device
with a null guid is never reported valid. -/
theorem claim5_counterexample :
    c5_device.guid = none ∧ Async.TionZoneDevice.valid c5_device = true := by
  decide

/-- C5 (amended): for async `TionZoneDevice.valid`, a present `data_valid`
decides validity outright — valid is false whenever data_valid is explicitly
false, valid equals guid presence only when data_valid is absent, and a
null-guid device with data_valid true is reported valid.  The sync
`Breezer.valid` is the stricter rule: valid iff guid is non-null and
data_valid is the value true. -/
theorem claim5_validity_rules :
    (∀ d : Async.TionZoneDevice, d.data.data_valid = some false →
        d.valid = false)
    ∧ (∀ (d : Async.TionZoneDevice) (b : Bool), d.data.data_valid = some b →
        d.valid = b)
    ∧ (∀ d : Async.TionZoneDevice, d.data.data_valid = none →
        d.valid = d.guid.isSome)
    ∧ (∀ b : Sync.Breezer,
        b.valid = true ↔ b.guid.isSome = true ∧ b.data_valid = some true) := by
  refine ⟨?_, ?_, ?_, ?_⟩
  · intro d h; simp [Async.TionZoneDevice.valid, h]
  · intro d b h; simp [Async.TionZoneDevice.valid, h]
  · intro d h; simp [Async.TionZoneDevice.valid, h]
  · intro b
    unfold Sync.Breezer.valid
    cases hb : b.data_valid with
    | none => simp
    | some v => cases v <;> simp

/-- C5 witness: the amended rules applied to concrete devices. -/
theorem claim5_validity_rules_witness :
    Async.TionZoneDevice.valid
      (Async.TionZoneDevice.of_raw
        { guid := some "g1", data := { data_valid := some false } }) = false :=
  claim5_validity_rules.1 _ rfl

/-- C10: the sync `Zone.send` body is always well-formed — its mode field is
always "auto" or "manual" (any other stored mode, including None, is coerced
to "manual"), its co2 field is the stored target or the default 900, and a
zone with a null guid returns False without issuing any request. -/
theorem claim10_zone_send_body :
    (∀ z : Sync.Zone,
        (Sync.Zone.send_body z).mode = "auto" ∨ (Sync.Zone.send_body z).mode = "manual")
    ∧ (∀ z : Sync.Zone, z.mode ≠ some "auto" → z.mode ≠ some "manual" →
        (Sync.Zone.send_body z).mode = "manual")
    ∧ (∀ (z : Sync.Zone) (c : Int), z.target_co2 = some c →
        (Sync.Zone.send_body z).co2 = c)
    ∧ (∀ z : Sync.Zone, z.target_co2 = none → (Sync.Zone.send_body z).co2 = 900)
    ∧ (∀ (z : Sync.Zone) (cfg : Sync.ClientConfig) (st : Sync.ClientState)
          (script : List HttpEvent) (now : Nat), z.guid = none →
        Sync.Zone.send cfg st z script now = (.ok false st script, [])) := by
  refine ⟨?_, ?_, ?_, ?_, ?_⟩
  · intro z
    unfold Sync.Zone.send_body
    cases hm : z.mode with
    | none => right; rfl
    | some m =>
      by_cases h : m = "auto" ∨ m = "manual"
      · simp only [if_pos h]; exact h
      · right; simp [if_neg h]
  · intro z h1 h2
    unfold Sync.Zone.send_body
    cases hm : z.mode with
    | none => rfl
    | some m =>
      have : ¬(m = "auto" ∨ m = "manual") := by
        rintro (rfl | rfl)
        · exact h1 hm
        · exact h2 hm
      simp only [if_neg this]
  · intro z c h; unfold Sync.Zone.send_body; rw [h]
  · intro z h; unfold Sync.Zone.send_body; rw [h]
  · intro z cfg st script now h
    unfold Sync.Zone.send
    have : z.valid = false := by simp [Sync.Zone.valid, h]
    rw [if_pos this]

/-- C10 witness: the body rules applied at a concrete zone state with an
unexpected stored mode and no stored co2 target, and a null-guid send. -/
theorem claim10_zone_send_body_witness :
    (Sync.Zone.send_body
        { guid := some "z", name := none, mode := some "weird", target_co2 := none }).mode
        = "manual"
    ∧ Sync.Zone.send scfg0 Sync.initial_state
        { guid := none, name := none, mode := none, target_co2 := some 800 } [] 0
        = (.ok false Sync.initial_state [], []) :=
  ⟨claim10_zone_send_body.2.1 _ (by decide) (by decide),
   claim10_zone_send_body.2.2.2.2 _ scfg0 Sync.initial_state [] 0 rfl⟩

/-- C2 counterexample: with force=false, a last_update of 0 and now=5 within
the min_update_interval of 10, the async `get_location_data` returns True and
issues no request although no snapshot was ever fetched (`_locations` is the
initial empty list): the code's debounce test `self._locations is not None`
compares a list, which is never None, so it cannot return False. -/
theorem claim2_counterexample :
    Async.get_location_data cfg0 Async.initial_state [] 5 false
      = (.ok true Async.initial_state [], [])
    ∧ Async.initial_state.locations = [] ∧ Async.initial_state.last_update = 0 := by
  decide

/-- C2 (amended): if refresh is called with force=false and the elapsed time
since the last refresh is below min_update_interval, no network request is
issued and the call returns True unconditionally — whether or not a snapshot
was ever fetched — because the test `self._locations is not None` is applied
to an attribute that is always a list (initialized to []), never None. -/
theorem claim2_debounce (cfg : Async.ClientConfig) (st : Async.ClientState)
    (script : List HttpEvent) (now : Nat)
    (h : now - st.last_update < cfg.min_update_interval) :
    Async.get_location_data cfg st script now false
      = (.ok true st script, []) := by
  unfold Async.get_location_data
  rw [if_pos ⟨rfl, h⟩]
  rfl

/-- C2 witness: the debounced read at a concrete state and clock. -/
theorem claim2_debounce_witness :
    Async.get_location_data cfg0 Async.initial_state [HttpEvent.exc] 3 false
      = (.ok true Async.initial_state [HttpEvent.exc], []) :=
  claim2_debounce cfg0 Async.initial_state [HttpEvent.exc] 3 (by decide)

/-- C7: a mutation submit whose JSON response status is not "queued" returns
False immediately: exactly one submit request is issued, no task-poll request
and no second submit — in the async `_send` (whatever the HTTP status code)
and likewise in the sync `Zone.send`. -/
theorem claim7_rejected_submit :
    (∀ (cfg : Async.ClientConfig) (st : Async.ClientState)
        (rest : List HttpEvent) (now : Nat) (url : String) (s : Nat)
        (status d tid : String), status ≠ "queued" →
        Async.send_cmd cfg st (.resp s (.task status d tid) :: rest) now url
          = (.ok false st rest, [.submit_req url]))
    ∧ (∀ (cfg : Sync.ClientConfig) (st : Sync.ClientState) (z : Sync.Zone)
        (rest : List HttpEvent) (now : Nat) (g : String) (s : Nat)
        (status d tid : String), z.guid = some g → status ≠ "queued" →
        Sync.Zone.send cfg st z (.resp s (.task status d tid) :: rest) now
          = (.ok false st rest,
             [.submit_zone_req ("https://api2.magicair.tion.ru/zone/" ++ g ++ "/mode")
                (Sync.Zone.send_body z)])) := by
  constructor
  · intro cfg st rest now url s status d tid h
    simp [Async.send_cmd, h]
  · intro cfg st z rest now g s status d tid hg h
    simp [Sync.Zone.send, Sync.Zone.valid, Sync.zone_submit, hg, h]

/-- C7 witness: a concrete rejected submission in both clients. -/
theorem claim7_rejected_submit_witness :
    Async.send_cmd cfg0 Async.initial_state
      [.resp 200 (.task "rejected" "bad value" "")] 0 "u"
      = (.ok false Async.initial_state [], [.submit_req "u"]) :=
  claim7_rejected_submit.1 cfg0 Async.initial_state [] 0 "u" 200
    "rejected" "bad value" "" (by decide)

/-- C8: lookup consistency over a fixed cached snapshot — `get_device_zone`
returns a zone that contains a device with the requested guid and returns
None exactly when no device in the snapshot has that guid; every device
listed by `get_devices` is found again by `get_device` with an equal guid;
`get_devices` is the flattening of the tree in location order, then zone
order, then device order; and within the debounce window (force=false) the
stateful `get_device` answers from the cached snapshot without any request. -/
theorem claim8_lookup_consistency :
    (∀ (locs : List Async.TionLocation) (needle : Option String)
        (z : Async.TionZone), Async.get_device_zone_pure locs needle = some z →
        (z.devices.any fun d => d.guid == needle) = true)
    ∧ (∀ (locs : List Async.TionLocation) (needle : Option String),
        Async.get_device_zone_pure locs needle = none ↔
          ∀ d ∈ Async.get_devices_pure locs, d.guid ≠ needle)
    ∧ (∀ (locs : List Async.TionLocation), ∀ d ∈ Async.get_devices_pure locs,
        ∃ d2 : Async.TionZoneDevice,
          Async.get_device_pure locs d.guid = some d2 ∧ d2.guid = d.guid)
    ∧ (∀ locs : List Async.TionLocation, Async.get_devices_pure locs
        = locs.flatMap fun l => l.zones.flatMap fun z => z.devices)
    ∧ (∀ (cfg : Async.ClientConfig) (st : Async.ClientState)
        (script : List HttpEvent) (now : Nat) (needle : Option String),
        now - st.last_update < cfg.min_update_interval →
        Async.get_device cfg st script now needle false
          = (.ok (Async.get_device_pure st.locations needle) st script, [])) := by
  refine ⟨?_, ?_, ?_, ?_, ?_⟩
  · intro locs needle z h
    unfold Async.get_device_zone_pure at h
    have hp := List.find?_some h
    simpa using hp
  · intro locs needle
    unfold Async.get_device_zone_pure Async.get_devices_pure
    rw [List.find?_eq_none]
    constructor
    · intro h d hd heq
      rw [List.mem_flatMap] at hd
      obtain ⟨l, hl, hd⟩ := hd
      rw [List.mem_flatMap] at hd
      obtain ⟨z, hz, hd⟩ := hd
      apply h z (List.mem_flatMap.mpr ⟨l, hl, hz⟩)
      rw [List.any_eq_true]
      exact ⟨d, hd, by simp [heq]⟩
    · intro h z hz hany
      rw [List.any_eq_true] at hany
      obtain ⟨d, hd, hguid⟩ := hany
      rw [List.mem_flatMap] at hz
      obtain ⟨l, hl, hz⟩ := hz
      exact h d
        (List.mem_flatMap.mpr ⟨l, hl, List.mem_flatMap.mpr ⟨z, hz, hd⟩⟩)
        (by simpa using hguid)
  · intro locs d hd
    unfold Async.get_device_pure
    have hsome : ((locs.flatMap fun l => l.zones.flatMap fun z => z.devices).find?
        fun x => x.guid == d.guid).isSome := by
      rw [List.find?_isSome]
      exact ⟨d, hd, by simp⟩
    obtain ⟨d2, hd2⟩ := Option.isSome_iff_exists.mp hsome
    refine ⟨d2, hd2, ?_⟩
    have := List.find?_some hd2
    simpa using this
  · intro locs; rfl
  · intro cfg st script now needle h
    unfold Async.get_device Async.get_location_data
    rw [if_pos ⟨rfl, h⟩]
    rfl

/-- C8 witness: the consistency properties applied to a concrete one-zone
snapshot holding one device. -/
theorem claim8_lookup_consistency_witness :
    ∃ d2 : Async.TionZoneDevice,
      Async.get_device_pure
        [{ guid := some "L", name := none,
           zones := [{ guid := some "Z", name := none,
                       mode := { current := none, auto_set := { co2 := none } },
                       devices := [Async.TionZoneDevice.of_raw { guid := some "D" }] }] }]
        (some "D") = some d2
      ∧ d2.guid = some "D" := by
  have h := claim8_lookup_consistency.2.2.1
    [{ guid := some "L", name := none,
       zones := [{ guid := some "Z", name := none,
                   mode := { current := none, auto_set := { co2 := none } },
                   devices := [Async.TionZoneDevice.of_raw { guid := some "D" }] }] }]
    (Async.TionZoneDevice.of_raw { guid := some "D" }) (by decide)
  simpa using h

/-- C9: in the async client virtual zones are discarded at parse time —
every zone of a parsed location, and hence every zone or device the lookup
layer can return from a parsed snapshot, originates from a raw zone whose
is_virtual field is not truthy; the sync variant's parser, by contrast, keeps
every raw zone, virtual or not. -/
theorem claim9_virtual_zones :
    (∀ rl : RawLocation, ∀ z ∈ (Async.TionLocation.of_raw rl).zones,
        ∃ rz ∈ rl.zones, rz.is_virtual.getD false = false
          ∧ z = Async.TionZone.of_raw rz)
    ∧ (∀ (rls : List RawLocation) (needle : Option String) (z : Async.TionZone),
        Async.get_zone_pure (rls.map Async.TionLocation.of_raw) needle = some z →
        ∃ rl ∈ rls, ∃ rz ∈ rl.zones, rz.is_virtual.getD false = false
          ∧ z = Async.TionZone.of_raw rz)
    ∧ (∀ (rls : List RawLocation) (needle : Option String) (z : Async.TionZone),
        Async.get_device_zone_pure (rls.map Async.TionLocation.of_raw) needle = some z →
        ∃ rl ∈ rls, ∃ rz ∈ rl.zones, rz.is_virtual.getD false = false
          ∧ z = Async.TionZone.of_raw rz)
    ∧ (∀ (rls : List RawLocation),
        ∀ d ∈ Async.get_devices_pure (rls.map Async.TionLocation.of_raw),
        ∃ rl ∈ rls, ∃ rz ∈ rl.zones, rz.is_virtual.getD false = false
          ∧ d ∈ (Async.TionZone.of_raw rz).devices)
    ∧ (∀ rl : RawLocation,
        (Sync.TionLocation.of_raw rl).zones = rl.zones.map Sync.TionZone.of_raw) := by
  have core : ∀ rl : RawLocation, ∀ z ∈ (Async.TionLocation.of_raw rl).zones,
      ∃ rz ∈ rl.zones, rz.is_virtual.getD false = false
        ∧ z = Async.TionZone.of_raw rz := by
    intro rl z hz
    unfold Async.TionLocation.of_raw at hz
    simp only [List.mem_map] at hz
    obtain ⟨rz, hrz, rfl⟩ := hz
    rw [List.mem_filter] at hrz
    refine ⟨rz, hrz.1, ?_, rfl⟩
    have := hrz.2
    simp only [Bool.not_eq_eq_eq_not, Bool.not_true] at this
    exact this
  have zone_mem : ∀ (rls : List RawLocation) (z : Async.TionZone),
      z ∈ ((rls.map Async.TionLocation.of_raw).flatMap fun l => l.zones) →
      ∃ rl ∈ rls, ∃ rz ∈ rl.zones, rz.is_virtual.getD false = false
        ∧ z = Async.TionZone.of_raw rz := by
    intro rls z hz
    rw [List.mem_flatMap] at hz
    obtain ⟨l, hl, hz⟩ := hz
    rw [List.mem_map] at hl
    obtain ⟨rl, hrl, rfl⟩ := hl
    obtain ⟨rz, hrz, hv, rfl⟩ := core rl z hz
    exact ⟨rl, hrl, rz, hrz, hv, rfl⟩
  refine ⟨core, ?_, ?_, ?_, ?_⟩
  · intro rls needle z h
    exact zone_mem rls z (List.mem_of_find?_eq_some h)
  · intro rls needle z h
    exact zone_mem rls z (List.mem_of_find?_eq_some h)
  · intro rls d hd
    unfold Async.get_devices_pure at hd
    rw [List.mem_flatMap] at hd
    obtain ⟨l, hl, hd⟩ := hd
    rw [List.mem_flatMap] at hd
    obtain ⟨z, hz, hd⟩ := hd
    have hzmem : z ∈ ((rls.map Async.TionLocation.of_raw).flatMap fun l => l.zones) :=
      List.mem_flatMap.mpr ⟨l, hl, hz⟩
    obtain ⟨rl, hrl, rz, hrz, hv, rfl⟩ := zone_mem rls z hzmem
    exact ⟨rl, hrl, rz, hrz, hv, hd⟩
  · intro rl; rfl

/-- C9 witness: parsing a concrete location containing one virtual and one
real zone — the kept zone originates from the non-virtual raw zone. -/
theorem claim9_virtual_zones_witness :
    ∃ rz ∈ [{ guid := some "v", is_virtual := some true : RawZone },
            { guid := some "r" : RawZone }],
      rz.is_virtual.getD false = false
        ∧ Async.TionZone.of_raw { guid := some "r" } = Async.TionZone.of_raw rz := by
  have h := claim9_virtual_zones.1
    { zones := [{ guid := some "v", is_virtual := some true },
                { guid := some "r" }] }
    (Async.TionZone.of_raw { guid := some "r" }) (by decide)
  simp only at h
  exact h

/-- Helper: the sync `_get_authorization` never lets a transport exception
propagate (the request is wrapped in try/except RequestException). -/
theorem sync_get_authorization_not_raised (st : Sync.ClientState)
    (script : List HttpEvent) :
    ((Sync.get_authorization st script).1).is_raised = false := by
  rcases script with _ | ⟨ev, rest⟩
  · rfl
  · unfold Sync.get_authorization
    rcases h : auth_resp_step ev with a | _ | _ | _ <;> simp [h, RunRes.is_raised]

/-- Helper: the sync location fetch never lets a transport exception
propagate, whatever the script (every request site is wrapped in
try/except); proof by strong induction on the script length, following the
401 re-auth recursion. -/
theorem sync_fetch_not_raised :
    ∀ (n : Nat) (script : List HttpEvent), script.length ≤ n →
      ∀ (cfg : Sync.ClientConfig) (st : Sync.ClientState) (now : Nat),
      ((Sync.location_fetch cfg st script now).1).is_raised = false := by
  intro n
  induction n with
  | zero =>
    intro script hlen cfg st now
    obtain rfl : script = [] := List.eq_nil_of_length_eq_zero (Nat.le_zero.mp hlen)
    rfl
  | succ n ih =>
    intro script hlen cfg st now
    rcases script with _ | ⟨ev, rest⟩
    · rfl
    rcases ev with ⟨s, body⟩ | _
    · unfold Sync.location_fetch
      by_cases h200 : s = 200
      · rw [if_pos h200]
        cases body <;> rfl
      · rw [if_neg h200]
        by_cases h401 : s = 401
        · rw [if_pos h401]
          rcases rest with _ | ⟨ev2, rest2⟩
          · rfl
          show ((match auth_resp_step ev2 with
            | AuthStep.success a =>
              let out := Sync.location_fetch cfg
                { st with authorization := some a } rest2 now
              (out.1, Request.location_req :: Request.auth_req :: out.2)
            | AuthStep.failure =>
              (RunRes.ok false st rest2, [Request.location_req, Request.auth_req])
            | AuthStep.transport_err =>
              (RunRes.ok false st rest2, [Request.location_req, Request.auth_req])
            | AuthStep.malformed =>
              (RunRes.stuck, [Request.location_req, Request.auth_req])).1).is_raised
            = false
          rcases hstep : auth_resp_step ev2 with a | _ | _ | _
          · have hlen2 : rest2.length ≤ n := by
              simp only [List.length_cons] at hlen
              omega
            exact ih rest2 hlen2 cfg { st with authorization := some a } now
          · rfl
          · rfl
          · rfl
        · rw [if_neg h401]
          rfl
    · rfl

/-- Helper: the sync `get_location_data` never lets a transport exception
propagate. -/
theorem sync_gld_not_raised (cfg : Sync.ClientConfig) (st : Sync.ClientState)
    (script : List HttpEvent) (now : Nat) (force : Bool) :
    ((Sync.get_location_data cfg st script now force).1).is_raised = false := by
  unfold Sync.get_location_data
  split
  · rfl
  · exact sync_fetch_not_raised script.length script le_rfl cfg st now

/-- Helper: the sync `wait_for_task` loop never lets a transport exception
propagate (the poll is wrapped in try/except, and the forced refresh it runs
on completion is itself exception-free). -/
theorem sync_wait_iter_not_raised :
    ∀ (iters : Nat) (cfg : Sync.ClientConfig) (now : Nat) (tid : String)
      (st : Sync.ClientState) (script : List HttpEvent),
      ((Sync.wait_for_task_iter cfg now tid iters st script).1).is_raised = false := by
  intro iters
  induction iters with
  | zero => intro cfg now tid st script; rfl
  | succ n ih =>
    intro cfg now tid st script
    rcases script with _ | ⟨ev, rest⟩
    · rfl
    rcases ev with ⟨s, body⟩ | _
    · cases body with
      | task status d t =>
        unfold Sync.wait_for_task_iter
        by_cases h200 : s = 200
        · rw [if_pos h200]
          by_cases hc : status = "completed"
          · rw [if_pos hc]
            rcases hgld : Sync.get_location_data cfg st rest now true with ⟨r, reqs⟩
            have hnr := sync_gld_not_raised cfg st rest now true
            rw [hgld] at hnr
            rcases r with ⟨a, st1, rest1⟩ | ⟨st1, rest1⟩ | _
            · rfl
            · exact absurd hnr (by simp [RunRes.is_raised])
            · rfl
          · rw [if_neg hc]
            exact ih cfg now tid st rest
        · rw [if_neg h200]
          rfl
      | locations ls =>
        unfold Sync.wait_for_task_iter
        split <;> rfl
      | token tt tok =>
        unfold Sync.wait_for_task_iter
        split <;> rfl
      | empty =>
        unfold Sync.wait_for_task_iter
        split <;> rfl
    · rfl

/-- Helper: the sync `Zone.send` submission never lets a transport exception
propagate. -/
theorem sync_zone_submit_not_raised (cfg : Sync.ClientConfig) (now : Nat)
    (url : String) (body : ZoneModeBody) (st : Sync.ClientState)
    (script : List HttpEvent) :
    ((Sync.zone_submit cfg now url body st script).1).is_raised = false := by
  rcases script with _ | ⟨ev, rest⟩
  · rfl
  rcases ev with ⟨s, b⟩ | _
  · cases b with
    | task status d t =>
      show ((if status = "queued" then
          with_req (Request.submit_zone_req url body)
            (Sync.wait_for_task cfg st rest now t 5)
        else (RunRes.ok false st rest,
          [Request.submit_zone_req url body])).1).is_raised = false
      by_cases hq : status = "queued"
      · rw [if_pos hq]
        exact sync_wait_iter_not_raised (2 * 5) cfg now t st rest
      · rw [if_neg hq]
        rfl
    | locations ls => rfl
    | token tt tok => rfl
    | empty => rfl
  · rfl

/-- Helper: the sync `Zone.send` never lets a transport exception propagate. -/
theorem sync_zone_send_not_raised (cfg : Sync.ClientConfig)
    (st : Sync.ClientState) (z : Sync.Zone) (script : List HttpEvent) (now : Nat) :
    ((Sync.Zone.send cfg st z script now).1).is_raised = false := by
  unfold Sync.Zone.send
  split
  · rfl
  · exact sync_zone_submit_not_raised cfg now _ _ st script

/-- C1 counterexample: a transport exception during a forced refresh
propagates uncaught out of the async client's public `get_location_data`,
contradicting the claim that no transport exception escapes the client's
public operations. -/
theorem claim1_counterexample :
    Async.get_location_data cfg0 Async.initial_state [HttpEvent.exc] 100 true
      = (.raised Async.initial_state [], [.location_req]) := by decide

/-- C1 (amended): the sync client resolves every transport exception locally
(authentication, location fetch, task polling and zone submit all catch and
return a failure value), but the async client catches transport exceptions
only inside its task-polling loop — during authentication, location fetch
and command submit they propagate uncaught to the caller. -/
theorem claim1_transport_resolution :
    (∀ (st : Async.ClientState) (rest : List HttpEvent),
        Async.get_authorization st (HttpEvent.exc :: rest)
          = (.raised st rest, [.auth_req]))
    ∧ (∀ (cfg : Async.ClientConfig) (st : Async.ClientState)
          (rest : List HttpEvent) (now : Nat),
        Async.get_data cfg st (HttpEvent.exc :: rest) now
          = (.raised st rest, [.location_req]))
    ∧ (∀ (cfg : Async.ClientConfig) (st : Async.ClientState)
          (rest : List HttpEvent) (now : Nat) (url : String),
        Async.send_cmd cfg st (HttpEvent.exc :: rest) now url
          = (.raised st rest, [.submit_req url]))
    ∧ (∀ (cfg : Async.ClientConfig) (now : Nat) (tid : String)
          (maxt : Nat) (st : Async.ClientState) (rest : List HttpEvent) (e : Nat),
        e < 2 * maxt →
        Async.wait_for_task_from cfg now tid maxt st (HttpEvent.exc :: rest) e
          = with_req (.task_req tid)
              (Async.wait_for_task_from cfg now tid maxt st rest (e + 1)))
    ∧ (∀ (st : Sync.ClientState) (rest : List HttpEvent),
        Sync.get_authorization st (HttpEvent.exc :: rest)
          = (.ok false st rest, [.auth_req]))
    ∧ (∀ (cfg : Sync.ClientConfig) (st : Sync.ClientState)
          (script : List HttpEvent) (now : Nat) (force : Bool),
        ((Sync.get_location_data cfg st script now force).1).is_raised = false)
    ∧ (∀ (cfg : Sync.ClientConfig) (st : Sync.ClientState)
          (script : List HttpEvent) (now : Nat) (tid : String) (maxt : Nat),
        ((Sync.wait_for_task cfg st script now tid maxt).1).is_raised = false)
    ∧ (∀ (cfg : Sync.ClientConfig) (st : Sync.ClientState) (z : Sync.Zone)
          (script : List HttpEvent) (now : Nat),
        ((Sync.Zone.send cfg st z script now).1).is_raised = false) := by
  refine ⟨?_, ?_, ?_, ?_, ?_, ?_, ?_, ?_⟩
  · intro st rest; rfl
  · intro cfg st rest now; rfl
  · intro cfg st rest now url; rfl
  · intro cfg now tid maxt st rest e he
    show (if 2 * maxt ≤ e then
        ((RunRes.ok false st (HttpEvent.exc :: rest) :
            RunRes Async.ClientState Bool), ([] : List Request))
      else with_req (Request.task_req tid)
        (Async.wait_for_task_from cfg now tid maxt st rest (e + 1)))
      = with_req (Request.task_req tid)
          (Async.wait_for_task_from cfg now tid maxt st rest (e + 1))
    rw [if_neg (by omega)]
  · intro st rest; rfl
  · intro cfg st script now force
    exact sync_gld_not_raised cfg st script now force
  · intro cfg st script now tid maxt
    exact sync_wait_iter_not_raised (2 * maxt) cfg now tid st script
  · intro cfg st z script now
    exact sync_zone_send_not_raised cfg st z script now

/-- C1 witness: the async polling loop swallowing a concrete exception. -/
theorem claim1_transport_resolution_witness :
    Async.wait_for_task_from cfg0 0 "T" 5 Async.initial_state [HttpEvent.exc] 0
      = with_req (.task_req "T")
          (Async.wait_for_task_from cfg0 0 "T" 5 Async.initial_state [] 1) :=
  claim1_transport_resolution.2.2.2.1 cfg0 0 "T" 5 Async.initial_state [] 0
    (by decide)

/-- Script of k rounds of (401 on the location fetch, then a successful
re-authentication) placed before a final tail. -/
def retry_script : Nat → List HttpEvent → List HttpEvent
  | 0, tail => tail
  | k + 1, tail =>
    .resp 401 .empty :: .resp 200 (.token "Bearer" "tok") :: retry_script k tail

/-- Requests the async `_get_data` issues along `retry_script`. -/
def retry_trace : Nat → List Request
  | 0 => [.location_req]
  | k + 1 => .location_req :: .auth_req :: retry_trace k

theorem retry_trace_auth_count (k : Nat) :
    (retry_trace k).count Request.auth_req = k := by
  induction k with
  | zero => rfl
  | succ k ih => simp [retry_trace, List.count_cons, ih]

theorem retry_trace_location_count (k : Nat) :
    (retry_trace k).count Request.location_req = k + 1 := by
  induction k with
  | zero => rfl
  | succ k ih => simp [retry_trace, List.count_cons, ih]

/-- Helper: k rounds of (401, successful auth) make the async `_get_data`
issue k auth requests and k+1 fetches before succeeding on the final 200. -/
theorem get_data_retry (cfg : Async.ClientConfig) (now : Nat)
    (ls : List RawLocation) :
    ∀ (k : Nat) (st : Async.ClientState) (rest : List HttpEvent),
      Async.get_data cfg st
          (retry_script k (.resp 200 (.locations ls) :: rest)) now
        = (.ok true { authorization := if k = 0 then st.authorization
                        else some ("Bearer" ++ " " ++ "tok"),
                      locations := ls.map Async.TionLocation.of_raw,
                      last_update := now } rest,
           retry_trace k) := by
  intro k
  induction k with
  | zero =>
    intro st rest
    simp only [retry_script]
    unfold Async.get_data
    rfl
  | succ k ih =>
    intro st rest
    simp only [retry_script]
    unfold Async.get_data
    show ((Async.get_data cfg
        { st with authorization := some ("Bearer" ++ " " ++ "tok") }
        (retry_script k (HttpEvent.resp 200 (Body.locations ls) :: rest)) now).1,
      Request.location_req :: Request.auth_req ::
        (Async.get_data cfg
          { st with authorization := some ("Bearer" ++ " " ++ "tok") }
          (retry_script k (HttpEvent.resp 200 (Body.locations ls) :: rest)) now).2)
      = _
    rw [ih { st with authorization := some ("Bearer" ++ " " ++ "tok") } rest]
    cases k <;> rfl

/-- C3 counterexample: a server answering 401, then auth success, then 401
again, then auth success, then 200 makes one location fetch call perform two
authentication attempts and three fetch requests — contradicting "at most
one authentication attempt and at most one retried fetch". -/
theorem claim3_counterexample :
    Async.get_data cfg0 Async.initial_state
      [.resp 401 .empty, .resp 200 (.token "Bearer" "t1"),
       .resp 401 .empty, .resp 200 (.token "Bearer" "t2"),
       .resp 200 (.locations [])] 50
      = (.ok true { authorization := some "Bearer t2", locations := [],
                    last_update := 50 } [],
         [.location_req, .auth_req, .location_req, .auth_req, .location_req])
    ∧ ([Request.location_req, .auth_req, .location_req, .auth_req,
        .location_req].count Request.auth_req) = 2 := by decide

/-- C3 (amended): each 401 fetch response triggers an authentication attempt
and, on its success, another fetch, recursively and with no depth bound: k
consecutive (401, auth-success) rounds produce exactly k authentication
attempts and k+1 fetch requests; the call terminates with failure as soon as
an authentication attempt fails (no further retry after that). -/
theorem claim3_reauth_unbounded :
    (∀ (k : Nat) (cfg : Async.ClientConfig) (st : Async.ClientState)
        (now : Nat) (ls : List RawLocation) (rest : List HttpEvent),
        Async.get_data cfg st
            (retry_script k (.resp 200 (.locations ls) :: rest)) now
          = (.ok true { authorization := if k = 0 then st.authorization
                          else some ("Bearer" ++ " " ++ "tok"),
                        locations := ls.map Async.TionLocation.of_raw,
                        last_update := now } rest,
             retry_trace k)
        ∧ (retry_trace k).count Request.auth_req = k
        ∧ (retry_trace k).count Request.location_req = k + 1)
    ∧ (∀ (cfg : Async.ClientConfig) (st : Async.ClientState) (now : Nat)
        (s : Nat) (b : Body) (rest : List HttpEvent), s ≠ 200 →
        Async.get_data cfg st (.resp 401 .empty :: .resp s b :: rest) now
          = (.ok false st rest, [.location_req, .auth_req])) := by
  constructor
  · intro k cfg st now ls rest
    exact ⟨get_data_retry cfg now ls k st rest, retry_trace_auth_count k,
      retry_trace_location_count k⟩
  · intro cfg st now s b rest hs
    have hstep : auth_resp_step (HttpEvent.resp s b) = AuthStep.failure := by
      cases b <;> simp [auth_resp_step, hs]
    show (match auth_resp_step (HttpEvent.resp s b) with
        | AuthStep.success a =>
          let out := Async.get_data cfg { st with authorization := some a }
            rest now
          (out.1, Request.location_req :: Request.auth_req :: out.2)
        | AuthStep.failure =>
          (RunRes.ok false st rest, [Request.location_req, Request.auth_req])
        | AuthStep.transport_err =>
          (RunRes.raised st rest, [Request.location_req, Request.auth_req])
        | AuthStep.malformed =>
          (RunRes.stuck, [Request.location_req, Request.auth_req]))
      = (RunRes.ok false st rest, [Request.location_req, Request.auth_req])
    rw [hstep]

/-- C3 witness: a failed re-authentication terminates the fetch with False. -/
theorem claim3_reauth_unbounded_witness :
    Async.get_data cfg0 Async.initial_state
      [.resp 401 .empty, .resp 500 .empty] 0
      = (.ok false Async.initial_state [], [.location_req, .auth_req]) :=
  claim3_reauth_unbounded.2 cfg0 Async.initial_state 0 500 .empty [] (by decide)

/-- C6 counterexample: in the sync `wait_for_task`, a transport exception on
the first poll terminates the call with False instead of continuing to poll,
contradicting the claim that during polling a transport exception never
terminates the call by itself. -/
theorem claim6_counterexample :
    Sync.wait_for_task scfg0 Sync.initial_state [HttpEvent.exc] 0 "T" 5
      = (.ok false Sync.initial_state [], [.task_req "T"]) := by decide

/-- C6 (amended): in the async polling loop a transport exception is logged
and polling continues while a non-200 response aborts with False; in the
sync variant the non-200 abort is the same but a transport exception also
aborts the call with False immediately. -/
theorem claim6_polling_asymmetry :
    (∀ (cfg : Async.ClientConfig) (now : Nat) (tid : String) (maxt : Nat)
        (st : Async.ClientState) (rest : List HttpEvent) (e : Nat),
        e < 2 * maxt →
        Async.wait_for_task_from cfg now tid maxt st (HttpEvent.exc :: rest) e
          = with_req (.task_req tid)
              (Async.wait_for_task_from cfg now tid maxt st rest (e + 1)))
    ∧ (∀ (cfg : Async.ClientConfig) (now : Nat) (tid : String) (maxt : Nat)
        (st : Async.ClientState) (rest : List HttpEvent) (e s : Nat) (b : Body),
        e < 2 * maxt → s ≠ 200 →
        Async.wait_for_task_from cfg now tid maxt st (.resp s b :: rest) e
          = (.ok false st rest, [.task_req tid]))
    ∧ (∀ (cfg : Sync.ClientConfig) (now : Nat) (tid : String) (iters : Nat)
        (st : Sync.ClientState) (rest : List HttpEvent),
        Sync.wait_for_task_iter cfg now tid (iters + 1) st (HttpEvent.exc :: rest)
          = (.ok false st rest, [.task_req tid]))
    ∧ (∀ (cfg : Sync.ClientConfig) (now : Nat) (tid : String) (iters : Nat)
        (st : Sync.ClientState) (rest : List HttpEvent) (s : Nat) (b : Body),
        s ≠ 200 →
        Sync.wait_for_task_iter cfg now tid (iters + 1) st (.resp s b :: rest)
          = (.ok false st rest, [.task_req tid])) := by
  refine ⟨?_, ?_, ?_, ?_⟩
  · intro cfg now tid maxt st rest e he
    have hne : ¬ 2 * maxt ≤ e := by omega
    show (if 2 * maxt ≤ e then
        ((RunRes.ok false st (HttpEvent.exc :: rest) :
            RunRes Async.ClientState Bool), ([] : List Request))
      else with_req (Request.task_req tid)
        (Async.wait_for_task_from cfg now tid maxt st rest (e + 1)))
      = _
    rw [if_neg hne]
  · intro cfg now tid maxt st rest e s b he hs
    have hne : ¬ 2 * maxt ≤ e := by omega
    cases b <;> simp [Async.wait_for_task_from, hne, hs]
  · intro cfg now tid iters st rest
    rfl
  · intro cfg now tid iters st rest s b hs
    cases b <;> simp [Sync.wait_for_task_iter, hs]

/-- C6 witness: a concrete non-200 poll response aborting the async loop. -/
theorem claim6_polling_asymmetry_witness :
    Async.wait_for_task_from cfg0 0 "T" 5 Async.initial_state
      [.resp 500 .empty] 0
      = (.ok false Async.initial_state [], [.task_req "T"]) :=
  claim6_polling_asymmetry.2.1 cfg0 0 "T" 5 Async.initial_state [] 0 500 .empty
    (by decide) (by decide)

/-- Script of n consecutive poll responses whose task status is "running". -/
def running_polls : Nat → List HttpEvent
  | 0 => []
  | n + 1 => .resp 200 (.task "running" "" "") :: running_polls n

/-- Helper: one running poll within budget makes the async loop sleep one
tick and continue. -/
theorem async_wait_running_step (cfg : Async.ClientConfig) (now : Nat)
    (tid : String) (st : Async.ClientState) (script : List HttpEvent) (e : Nat)
    (he : e < 2 * 5) :
    Async.wait_for_task_from cfg now tid 5 st
        (.resp 200 (.task "running" "" "") :: script) e
      = with_req (.task_req tid)
          (Async.wait_for_task_from cfg now tid 5 st script (e + 1)) := by
  have hne : ¬ 2 * 5 ≤ e := by omega
  simp [Async.wait_for_task_from, hne]

/-- Helper: a completed poll within budget makes the async loop run the
forced refresh and return its result. -/
theorem async_wait_completed_step (cfg : Async.ClientConfig) (now : Nat)
    (tid : String) (st : Async.ClientState) (script : List HttpEvent) (e : Nat)
    (he : e < 2 * 5) :
    Async.wait_for_task_from cfg now tid 5 st
        (.resp 200 (.task "completed" "" "") :: script) e
      = with_req (.task_req tid) (Async.get_location_data cfg st script now true) := by
  have hne : ¬ 2 * 5 ≤ e := by omega
  simp [Async.wait_for_task_from, hne]

/-- Helper: n running polls within budget consume n script events and n
ticks. -/
theorem async_wait_running (cfg : Async.ClientConfig) (now : Nat) (tid : String) :
    ∀ (n e : Nat) (st : Async.ClientState) (rest : List HttpEvent),
      e + n < 2 * 5 →
      Async.wait_for_task_from cfg now tid 5 st (running_polls n ++ rest) e
        = ((Async.wait_for_task_from cfg now tid 5 st rest (e + n)).1,
           List.replicate n (Request.task_req tid)
             ++ (Async.wait_for_task_from cfg now tid 5 st rest (e + n)).2) := by
  intro n
  induction n with
  | zero =>
    intro e st rest h
    simp [running_polls]
  | succ n ih =>
    intro e st rest h
    simp only [running_polls, List.cons_append]
    rw [async_wait_running_step cfg now tid st (running_polls n ++ rest) e
      (by omega)]
    rw [ih (e + 1) st rest (by omega)]
    have hx : e + 1 + n = e + (n + 1) := by omega
    simp [with_req, List.replicate_succ, hx]

/-- Helper: forced refreshes skip the debounce. -/
theorem async_gld_force (cfg : Async.ClientConfig) (st : Async.ClientState)
    (script : List HttpEvent) (now : Nat) :
    Async.get_location_data cfg st script now true
      = Async.get_data cfg st script now := by
  simp [Async.get_location_data]

/-- Helper: a 200 location response replaces the snapshot. -/
theorem get_data_200 (cfg : Async.ClientConfig) (st : Async.ClientState)
    (ls : List RawLocation) (rest : List HttpEvent) (now : Nat) :
    Async.get_data cfg st (.resp 200 (.locations ls) :: rest) now
      = (.ok true { st with locations := ls.map Async.TionLocation.of_raw,
                            last_update := now } rest, [.location_req]) := by
  unfold Async.get_data
  rfl

/-- Helper: a non-200, non-401 fetch response fails the async fetch. -/
theorem get_data_other (cfg : Async.ClientConfig) (st : Async.ClientState)
    (s : Nat) (b : Body) (rest : List HttpEvent) (now : Nat)
    (h2 : s ≠ 200) (h4 : s ≠ 401) :
    Async.get_data cfg st (.resp s b :: rest) now
      = (.ok false st rest, [.location_req]) := by
  unfold Async.get_data
  rw [if_neg h2, if_neg h4]

/-- Helper: a queued submit response hands over to the task poll loop. -/
theorem send_cmd_queued (cfg : Async.ClientConfig) (st : Async.ClientState)
    (script : List HttpEvent) (now : Nat) (url : String) (s : Nat) (tid : String) :
    Async.send_cmd cfg st (.resp s (.task "queued" "" tid) :: script) now url
      = with_req (.submit_req url) (Async.wait_for_task cfg st script now tid 5) := by
  simp [Async.send_cmd]

/-- Helper: one running poll makes the sync loop sleep and spend one
iteration. -/
theorem sync_wait_running_step (cfg : Sync.ClientConfig) (now : Nat)
    (tid : String) (i : Nat) (st : Sync.ClientState) (script : List HttpEvent) :
    Sync.wait_for_task_iter cfg now tid (i + 1) st
        (.resp 200 (.task "running" "" "") :: script)
      = with_req (.task_req tid)
          (Sync.wait_for_task_iter cfg now tid i st script) := by
  simp [Sync.wait_for_task_iter]

/-- Helper: a completed poll makes the sync loop run the forced refresh,
discard its outcome and return True. -/
theorem sync_wait_completed_ok (cfg : Sync.ClientConfig) (now : Nat)
    (tid : String) (i : Nat) (st : Sync.ClientState) (script : List HttpEvent)
    (a : Bool) (st1 : Sync.ClientState) (rest1 : List HttpEvent)
    (reqs : List Request)
    (hgld : Sync.get_location_data cfg st script now true = (.ok a st1 rest1, reqs)) :
    Sync.wait_for_task_iter cfg now tid (i + 1) st
        (.resp 200 (.task "completed" "" "") :: script)
      = (.ok true st1 rest1, .task_req tid :: reqs) := by
  simp [Sync.wait_for_task_iter, hgld]

/-- Helper: n running polls spend n of the sync loop's iterations. -/
theorem sync_wait_running (cfg : Sync.ClientConfig) (now : Nat) (tid : String) :
    ∀ (n i : Nat) (st : Sync.ClientState) (rest : List HttpEvent),
      Sync.wait_for_task_iter cfg now tid (n + (i + 1)) st (running_polls n ++ rest)
        = ((Sync.wait_for_task_iter cfg now tid (i + 1) st rest).1,
           List.replicate n (Request.task_req tid)
             ++ (Sync.wait_for_task_iter cfg now tid (i + 1) st rest).2) := by
  intro n
  induction n with
  | zero =>
    intro i st rest
    simp [running_polls]
  | succ n ih =>
    intro i st rest
    have harith : n + 1 + (i + 1) = (n + (i + 1)) + 1 := by omega
    simp only [running_polls, List.cons_append]
    rw [harith, sync_wait_running_step cfg now tid (n + (i + 1)) st
      (running_polls n ++ rest)]
    rw [ih i st rest]
    simp [with_req, List.replicate_succ]

/-- Helper: sync forced refreshes skip the debounce. -/
theorem sync_gld_force (cfg : Sync.ClientConfig) (st : Sync.ClientState)
    (script : List HttpEvent) (now : Nat) :
    Sync.get_location_data cfg st script now true
      = Sync.location_fetch cfg st script now := by
  simp [Sync.get_location_data]

/-- Helper: a non-200, non-401 fetch response fails the sync fetch. -/
theorem location_fetch_other (cfg : Sync.ClientConfig) (st : Sync.ClientState)
    (s : Nat) (b : Body) (rest : List HttpEvent) (now : Nat)
    (h2 : s ≠ 200) (h4 : s ≠ 401) :
    Sync.location_fetch cfg st (.resp s b :: rest) now
      = (.ok false st rest, [.location_req]) := by
  unfold Sync.location_fetch
  rw [if_neg h2, if_neg h4]

/-- Helper: a queued submit response hands the sync Zone.send over to the
task poll loop. -/
theorem zone_submit_queued (cfg : Sync.ClientConfig) (now : Nat) (url : String)
    (body : ZoneModeBody) (st : Sync.ClientState) (script : List HttpEvent)
    (s : Nat) (tid : String) :
    Sync.zone_submit cfg now url body st (.resp s (.task "queued" "" tid) :: script)
      = with_req (.submit_zone_req url body)
          (Sync.wait_for_task cfg st script now tid 5) := by
  simp [Sync.zone_submit]

/-- Helper: replicated task polls contribute no location request. -/
theorem replicate_task_count_location (n : Nat) (tid : String) :
    (List.replicate n (Request.task_req tid)).count Request.location_req = 0 := by
  induction n with
  | zero => rfl
  | succ n ih => simp [List.replicate_succ, List.count_cons, ih]

/-- C4 counterexample: a queued submit followed by running and completed
polls within budget, whose subsequent forced refresh fails with HTTP 500,
makes the async `send_zone` return False — the send does not return true
regardless of the forced refresh's outcome, it returns the refresh's own
result. -/
theorem claim4_counterexample :
    Async.send_zone cfg0 Async.initial_state
      [.resp 200 (.task "queued" "" "T"), .resp 200 (.task "running" "" ""),
       .resp 200 (.task "completed" "" ""), .resp 500 .empty] 7 "g"
      = (.ok false Async.initial_state [],
         [.submit_req (Async.API_ENDPOINT ++ "zone/g/mode"), .task_req "T",
          .task_req "T", .location_req]) := by decide

/-- C4 (amended): a queued submit followed by n running polls and a
completed poll within the 5-second budget makes the send perform exactly one
forced Data Cache refresh, and the async variant returns that refresh's
result (true when it succeeds, false when it fails), while the sync variant
returns true regardless of the refresh's outcome. -/
theorem claim4_send_refresh :
    (∀ (n : Nat) (cfg : Async.ClientConfig) (st : Async.ClientState)
        (now : Nat) (g : String) (ls : List RawLocation)
        (rest : List HttpEvent), n < 10 →
        Async.send_zone cfg st
            (.resp 200 (.task "queued" "" "T")
              :: (running_polls n
                ++ (.resp 200 (.task "completed" "" "")
                  :: .resp 200 (.locations ls) :: rest))) now g
          = (.ok true { st with locations := ls.map Async.TionLocation.of_raw,
                                last_update := now } rest,
             .submit_req (Async.API_ENDPOINT ++ "zone/" ++ g ++ "/mode")
               :: (List.replicate n (.task_req "T")
                 ++ [.task_req "T", .location_req])))
    ∧ (∀ (n : Nat) (cfg : Async.ClientConfig) (st : Async.ClientState)
        (now : Nat) (g : String) (s : Nat) (rest : List HttpEvent),
        n < 10 → s ≠ 200 → s ≠ 401 →
        Async.send_zone cfg st
            (.resp 200 (.task "queued" "" "T")
              :: (running_polls n
                ++ (.resp 200 (.task "completed" "" "")
                  :: .resp s .empty :: rest))) now g
          = (.ok false st rest,
             .submit_req (Async.API_ENDPOINT ++ "zone/" ++ g ++ "/mode")
               :: (List.replicate n (.task_req "T")
                 ++ [.task_req "T", .location_req])))
    ∧ (∀ (n : Nat) (cfg : Sync.ClientConfig) (st : Sync.ClientState)
        (z : Sync.Zone) (now : Nat) (g : String) (s : Nat)
        (rest : List HttpEvent), n ≤ 9 → z.guid = some g → s ≠ 200 → s ≠ 401 →
        Sync.Zone.send cfg st z
            (.resp 200 (.task "queued" "" "T")
              :: (running_polls n
                ++ (.resp 200 (.task "completed" "" "")
                  :: .resp s .empty :: rest))) now
          = (.ok true st rest,
             .submit_zone_req ("https://api2.magicair.tion.ru/zone/" ++ g ++ "/mode")
                 (Sync.Zone.send_body z)
               :: (List.replicate n (.task_req "T")
                 ++ [.task_req "T", .location_req])))
    ∧ (∀ (n : Nat) (u tid : String),
        ((Request.submit_req u
            :: (List.replicate n (Request.task_req tid)
              ++ [Request.task_req tid, Request.location_req])).count
          Request.location_req) = 1) := by
  refine ⟨?_, ?_, ?_, ?_⟩
  · intro n cfg st now g ls rest hn
    unfold Async.send_zone
    rw [send_cmd_queued]
    unfold Async.wait_for_task
    rw [async_wait_running cfg now "T" n 0 st _ (by omega)]
    simp only [Nat.zero_add]
    rw [async_wait_completed_step cfg now "T" st _ n (by omega)]
    rw [async_gld_force, get_data_200]
    simp [with_req]
  · intro n cfg st now g s rest hn h2 h4
    unfold Async.send_zone
    rw [send_cmd_queued]
    unfold Async.wait_for_task
    rw [async_wait_running cfg now "T" n 0 st _ (by omega)]
    simp only [Nat.zero_add]
    rw [async_wait_completed_step cfg now "T" st _ n (by omega)]
    rw [async_gld_force, get_data_other cfg st s .empty rest now h2 h4]
    simp [with_req]
  · intro n cfg st z now g s rest hn hg h2 h4
    unfold Sync.Zone.send
    rw [if_neg (by simp [Sync.Zone.valid, hg])]
    simp only [hg, Option.getD_some]
    rw [zone_submit_queued]
    unfold Sync.wait_for_task
    rw [show 2 * 5 = n + ((9 - n) + 1) from by omega]
    rw [sync_wait_running cfg now "T" n (9 - n) st _]
    have hgld : Sync.get_location_data cfg st (.resp s .empty :: rest) now true
        = (.ok false st rest, [.location_req]) := by
      rw [sync_gld_force, location_fetch_other cfg st s .empty rest now h2 h4]
    rw [sync_wait_completed_ok cfg now "T" (9 - n) st _ false st rest
      [.location_req] hgld]
    simp [with_req]
  · intro n u tid
    simp [List.count_append, List.count_cons, replicate_task_count_location n tid]

/-- C4 witness: a concrete queued/running/completed exchange whose forced
refresh succeeds, making the async send return true after one refresh. -/
theorem claim4_send_refresh_witness :
    Async.send_zone cfg0 Async.initial_state
      (.resp 200 (.task "queued" "" "T")
        :: (running_polls 1
          ++ (.resp 200 (.task "completed" "" "")
            :: .resp 200 (.locations []) :: []))) 7 "g"
      = (.ok true { authorization := none, locations := [], last_update := 7 } [],
         .submit_req (Async.API_ENDPOINT ++ "zone/" ++ "g" ++ "/mode")
           :: (List.replicate 1 (.task_req "T")
             ++ [.task_req "T", .location_req])) :=
  claim4_send_refresh.1 1 cfg0 Async.initial_state 7 "g" [] [] (by decide)
